import Mathlib

/-!
Verification of the FolderManager utility (src/main.c and src/main.cpp).

The two source files are near-duplicate Windows programs.  Both are embedded
here over `List Nat` (byte values of C `char`s / elements of `std::string`):
the C functions keep their snake_case names, the C++ functions their
camelCase names.  Terminal input is modelled line by line (each element of a
`List (List Nat)` is one line with its terminator removed, as `std::getline`
yields it); file contents are modelled as the text-mode character stream the
programs read and write (Windows text mode translates CRLF to LF on read and
back on write, so `"\n"` written is `"\n"` read).
-/

namespace FolderManager

/-- Character codes of a string literal, as the C and C++ sources see them. -/
def str (s : String) : List Nat := s.toList.map (fun c => c.toNat)

/-- `iscntrl` of ctype.h in the C locale: codes 0..31 and 127. -/
def iscntrl (c : Nat) : Bool := c < 32 || c == 127

/-- `isspace` of ctype.h in the C locale: space, TAB, LF, VT, FF, CR. -/
def isspace (c : Nat) : Bool :=
  c == 32 || c == 9 || c == 10 || c == 11 || c == 12 || c == 13

/-- The reserved set both sources call `invalid`: the characters of
`"<>:\"/\\|?*"` (codes 60 62 58 34 47 92 124 63 42). -/
def invalidChars : List Nat := str "<>:\"/\\|?*"

/-- `tolower` of ctype.h in the C locale, on the `int` the sources pass it. -/
def tolowerInt (c : Nat) : Nat := if 65 ≤ c ∧ c ≤ 90 then c + 32 else c

/-- The affirmative test both programs apply to a response line:
`tolower(response[0]) == 'y'` (code 121).  An empty line yields a first
character that is not `y` in either source (`\n` left by fgets in C, the
null character from `std::string::operator[]` in C++), modelled as `false`.
Used at the config-default prompt and at the name-confirmation prompt of
both programs. -/
def respIsYes (resp : List Nat) : Bool :=
  match resp with
  | [] => false
  | c :: _ => tolowerInt c == 121

/-- src/main.cpp, `sanitizeFolderName` (lines 80-88): drop reserved and
control characters, map whitespace to an underscore (code 95), copy the
rest; no length bound. -/
def sanitizeFolderName : List Nat → List Nat
  | [] => []
  | c :: rest =>
    if iscntrl c || invalidChars.contains c then sanitizeFolderName rest
    else (if isspace c then 95 else c) :: sanitizeFolderName rest

/-- The loop body of src/main.c, `sanitize_folder_name` (lines 101-110):
`j` is the number of characters already emitted; the loop also stops once
`j` reaches `MAX_NAME_LEN - 1 = 255`. -/
def sanitizeGo : List Nat → Nat → List Nat
  | [], _ => []
  | c :: rest, j =>
    if j < 255 then
      if invalidChars.contains c || iscntrl c then sanitizeGo rest j
      else if isspace c then 95 :: sanitizeGo rest (j + 1)
      else c :: sanitizeGo rest (j + 1)
    else []

/-- src/main.c, `sanitize_folder_name` (lines 101-110). -/
def sanitize_folder_name (input : List Nat) : List Nat := sanitizeGo input 0

/-- Modelled from the spec's words (§4.2): "iterates the input, dropping any
character in the reserved set `<>:\"/\\|?*` and any control character; maps
any remaining whitespace character to a single underscore; copies all other
characters unchanged" — with no truncation.  Kept separate from the two
source embeddings so they can be compared against it. -/
def sanitizeSpecMap (input : List Nat) : List Nat :=
  input.filterMap (fun c =>
    if invalidChars.contains c || iscntrl c then none
    else if isspace c then some 95 else some c)

/-- A character the sanitizers are allowed to emit: neither reserved nor a
control character. -/
def goodChar (c : Nat) : Bool := !(invalidChars.contains c) && !(iscntrl c)

example : sanitizeFolderName (str "my folder") = str "my_folder" := by decide
example : sanitize_folder_name (str "my folder") = str "my_folder" := by decide
example : sanitizeFolderName (str "a<b>c") = str "abc" := by decide
example : sanitize_folder_name (str "a<b>c") = str "abc" := by decide
example : sanitizeFolderName (str "") = str "" := by decide

/-- `s[strcspn(s, "\r\n")] = 0`: cut a buffer at its first CR or LF, the idiom
both C input paths use to strip the line terminator fgets leaves behind. -/
def stripCRLF (s : List Nat) : List Nat :=
  s.takeWhile (fun c => !(c == 13 || c == 10))

/-- A re-entered name in the C loop: `fgets(finalName, MAX_NAME_LEN, stdin)`
keeps at most 255 characters of the line, then the CR/LF cut (main.c line
135-136).  Stdin is modelled line by line; the tail an over-long line would
leave in the C stream is not modelled. -/
def readNameC (line : List Nat) : List Nat := stripCRLF (line.take 255)

/-- src/main.c, `prompt_user_for_folder_name` (lines 120-139), as a function
of the starting name and the remaining stdin lines.  Result: the confirmed
name, the list of sanitized names displayed, and the unread stdin lines;
`none` when stdin runs out while the loop would still be blocked reading. -/
def prompt_user_for_folder_name :
    List Nat → List (List Nat) → Option (List Nat × List (List Nat) × List (List Nat))
  | _, [] => none
  | name, [resp] =>
    let s := sanitize_folder_name name
    if respIsYes resp then some (s, [s], []) else none
  | name, resp :: newLine :: rest =>
    let s := sanitize_folder_name name
    if respIsYes resp then some (s, [s], newLine :: rest)
    else
      match prompt_user_for_folder_name (readNameC newLine) rest with
      | none => none
      | some (f, ds, r) => some (f, s :: ds, r)

/-- src/main.cpp, `promptForFolderName` (lines 95-112): same loop, but the
re-entered name is the raw `std::getline` result (no truncation, no CR cut). -/
def promptForFolderName :
    List Nat → List (List Nat) → Option (List Nat × List (List Nat) × List (List Nat))
  | _, [] => none
  | name, [resp] =>
    let s := sanitizeFolderName name
    if respIsYes resp then some (s, [s], []) else none
  | name, resp :: newLine :: rest =>
    let s := sanitizeFolderName name
    if respIsYes resp then some (s, [s], newLine :: rest)
    else
      match promptForFolderName newLine rest with
      | none => none
      | some (f, ds, r) => some (f, s :: ds, r)

/-- Outcome of the config resolvers: the returned base path, the config file
content after the call, and the unread stdin lines; `fail` when the source
returns failure (C) or exits (C++); `blocked` when stdin runs out at a
blocking read. -/
inductive CfgResult where
  | ok (basePath : List Nat) (newConfig : Option (List Nat)) (rest : List (List Nat))
  | fail
  | blocked
deriving DecidableEq

/-- src/main.c, `read_or_create_config` (lines 51-90) with `get_config_path`
(lines 25-36), over the home directory (`USERPROFILE`), the config file
content (`none` when the file does not exist) and stdin.  An existing but
empty file makes `fgets` report failure, so the function returns 0 (fail).
`fgets(basePath, 1024, file)` keeps at most 1023 characters; the fopen-for-
write failure path is not modelled (writes succeed). -/
def read_or_create_config (home : Option (List Nat)) (config : Option (List Nat))
    (stdin : List (List Nat)) : CfgResult :=
  match home with
  | none => .fail
  | some h =>
    match config with
    | some content =>
      if content.isEmpty then .fail
      else .ok (stripCRLF (content.take 1023)) (some content) stdin
    | none =>
      match stdin with
      | [] => .blocked
      | resp :: rest =>
        let suggested := (h ++ 92 :: str "Projects").take 1023
        if respIsYes resp then .ok suggested (some (suggested ++ [10])) rest
        else
          match rest with
          | [] => .blocked
          | entered :: tail =>
            let bp := stripCRLF (entered.take 1023)
            .ok bp (some (bp ++ [10])) tail

/-- src/main.cpp, `readOrCreateBasePath` (lines 44-73) with `getUserProfile`:
an existing file is read with one `std::getline` (first line, LF stripped,
empty file gives the empty string); otherwise the suggested default is
`home + "\\" + "Projects"`, and a rejected default is replaced by the raw
next line. -/
def readOrCreateBasePath (home : Option (List Nat)) (config : Option (List Nat))
    (stdin : List (List Nat)) : CfgResult :=
  match home with
  | none => .fail
  | some h =>
    match config with
    | some content => .ok (content.takeWhile (fun c => !(c == 10))) (some content) stdin
    | none =>
      match stdin with
      | [] => .blocked
      | resp :: rest =>
        let suggested := h ++ 92 :: str "Projects"
        if respIsYes resp then .ok suggested (some (suggested ++ [10])) rest
        else
          match rest with
          | [] => .blocked
          | entered :: tail => .ok entered (some (entered ++ [10])) tail

/-- Modelled from the spec (§4.1, §6): the value resolve() should return for
an existing config file — its first line with trailing line-ending
characters stripped. -/
def firstLine (content : List Nat) : List Nat := content.takeWhile (fun c => !(c == 10))

/-- Modelled from the spec (§4.1): strip trailing CR/LF characters. -/
def stripTrailingEOL (l : List Nat) : List Nat :=
  (l.reverse.dropWhile (fun c => c == 13 || c == 10)).reverse

/-- Modelled from the spec (§4.1): "reads its first line, strips trailing
line-ending characters, returns it as basePath". -/
def specReadConfig (content : List Nat) : List Nat := stripTrailingEOL (firstLine content)

/-- The environment one run of either `main` sees.  `args` is argv (program
name included); `dirExists`, `mkdirOk`, `chdirOk` are the answers of the
filesystem at the one full path the run builds; `downloadsFound` is whether
`SHGetKnownFolderPath(FOLDERID_Downloads, ...)` succeeds; `browserOk` is the
outcome of the `ShellExecute` calls — the sources discard it, so no model
field reads it. -/
structure Env where
  args : List (List Nat)
  home : Option (List Nat)
  config : Option (List Nat)
  stdin : List (List Nat)
  dirExists : Bool
  mkdirOk : Bool
  chdirOk : Bool
  downloadsFound : Bool
  browserOk : Bool

/-- stderr line of main.c, `open_downloads_folder` (line 180). -/
def downloadsErrC : List Nat := str "Error: Could not locate Downloads folder"

/-- stderr line of main.cpp, `openDownloadsFolder` (line 134). -/
def downloadsErrCpp : List Nat := str "Error: Could not locate Downloads folder."

/-- src/main.c, `main` (lines 190-234): exit code and the stderr lines of the
modelled paths (the errno text perror appends is not modelled); `none` when
the run blocks on exhausted stdin.  argv[1] is truncated to 255 characters
by strncpy before the prompt loop; the full path built by snprintf is capped
at 1023 characters. -/
def mainC (env : Env) : Option (Nat × List (List Nat)) :=
  match env.args with
  | [_, arg] =>
    let folderName := arg.take 255
    match prompt_user_for_folder_name folderName env.stdin with
    | none => none
    | some (finalName, _, stdinAfterPrompt) =>
      match read_or_create_config env.home env.config stdinAfterPrompt with
      | .blocked => none
      | .fail => some (1, [str "Error: configuration failure"])
      | .ok basePath _ _ =>
        let _fullPath := (basePath ++ 92 :: finalName).take 1023
        if !env.dirExists && !env.mkdirOk then
          some (1, [str "Error creating directory"])
        else if !env.chdirOk then
          some (1, [str "Error changing directory"])
        else
          -- open_in_file_explorer fullPath: ShellExecute result discarded.
          let errs := if env.downloadsFound then ([] : List (List Nat)) else [downloadsErrC]
          some (0, errs)
  | _ => some (1, [str "Usage: <folder_name>"])

/-- src/main.cpp, `main` (lines 144-173): same control flow; argv[1] is taken
whole (std::string), the path is joined by std::filesystem with the
preferred separator. -/
def mainCpp (env : Env) : Option (Nat × List (List Nat)) :=
  match env.args with
  | [_, arg] =>
    match promptForFolderName arg env.stdin with
    | none => none
    | some (finalName, _, stdinAfterPrompt) =>
      match readOrCreateBasePath env.home env.config stdinAfterPrompt with
      | .blocked => none
      | .fail => some (1, [str "Error: configuration failure"])
      | .ok basePath _ _ =>
        let _fullPath := basePath ++ 92 :: finalName
        if !env.dirExists && !env.mkdirOk then
          some (1, [str "Error creating directory"])
        else if !env.chdirOk then
          some (1, [str "Error changing directory"])
        else
          -- openInExplorer fullPath: ShellExecute result discarded.
          let errs := if env.downloadsFound then ([] : List (List Nat)) else [downloadsErrCpp]
          some (0, errs)
  | _ => some (1, [str "Usage: <folder_name>"])

/-! ## Lemmas about the sanitizers -/

/-- The C++ sanitizer computes exactly the spec's character map. -/
theorem sanitizeFolderName_eq_specMap (s : List Nat) :
    sanitizeFolderName s = sanitizeSpecMap s := by
  induction s with
  | nil => rfl
  | cons c rest ih =>
    by_cases h1 : c ∈ invalidChars <;> by_cases h2 : iscntrl c = true <;>
      by_cases h3 : isspace c = true <;>
        simp [sanitizeFolderName, sanitizeSpecMap, List.filterMap_cons, h1, h2, h3,
          ih]

/-- The C loop with `j` characters already emitted produces the first
`255 - j` characters of the untruncated (C++) result. -/
theorem sanitizeGo_eq_take : ∀ (s : List Nat) (j : Nat),
    sanitizeGo s j = (sanitizeFolderName s).take (255 - j)
  | [], j => by simp [sanitizeGo, sanitizeFolderName]
  | c :: rest, j => by
    rcases Nat.lt_or_ge j 255 with hj | hj
    · have h255 : 255 - j = (255 - (j + 1)) + 1 := by omega
      by_cases h1 : c ∈ invalidChars <;> by_cases h2 : iscntrl c = true <;>
        by_cases h3 : isspace c = true <;>
          simp [sanitizeGo, sanitizeFolderName, hj, h1, h2, h3, h255,
            sanitizeGo_eq_take rest]
    · have h255 : 255 - j = 0 := by omega
      simp [sanitizeGo, Nat.not_lt.mpr hj, h255]

/-- The C sanitizer is the C++ sanitizer truncated to 255 characters. -/
theorem sanitize_folder_name_eq_take (s : List Nat) :
    sanitize_folder_name s = (sanitizeFolderName s).take 255 := by
  simpa [sanitize_folder_name] using sanitizeGo_eq_take s 0

/-- Every character the C++ sanitizer emits is neither reserved, nor a
control character, nor whitespace. -/
theorem mem_sanitizeFolderName {c : Nat} : ∀ {s : List Nat},
    c ∈ sanitizeFolderName s →
    c ∉ invalidChars ∧ iscntrl c = false ∧ isspace c = false
  | [], h => by simp [sanitizeFolderName] at h
  | d :: rest, h => by
    by_cases h1 : (iscntrl d || invalidChars.contains d) = true
    · rw [sanitizeFolderName, if_pos h1] at h
      exact mem_sanitizeFolderName h
    · rw [sanitizeFolderName, if_neg h1] at h
      rcases List.mem_cons.mp h with hc | hc
      · by_cases h3 : isspace d = true
        · rw [if_pos h3] at hc
          subst hc
          refine ⟨by decide, by decide, by decide⟩
        · rw [if_neg h3] at hc
          subst hc
          simp only [Bool.or_eq_true, not_or, Bool.not_eq_true] at h1
          refine ⟨?_, h1.1, Bool.not_eq_true _ ▸ h3⟩
          intro hm
          simp [hm] at h1
      · exact mem_sanitizeFolderName hc

/-- A string whose characters are all clean passes the C++ sanitizer
unchanged. -/
theorem sanitizeFolderName_of_clean : ∀ s : List Nat,
    (∀ c ∈ s, c ∉ invalidChars ∧ iscntrl c = false ∧ isspace c = false) →
    sanitizeFolderName s = s
  | [], _ => rfl
  | c :: rest, h => by
    obtain ⟨h1, h2, h3⟩ := h c (List.mem_cons_self c rest)
    simp [sanitizeFolderName, h1, h2, h3,
      sanitizeFolderName_of_clean rest (fun d hd => h d (List.mem_cons_of_mem c hd))]

/-- Idempotence of the C++ sanitizer. -/
theorem sanitizeFolderName_idem (s : List Nat) :
    sanitizeFolderName (sanitizeFolderName s) = sanitizeFolderName s :=
  sanitizeFolderName_of_clean _ (fun _ hc => mem_sanitizeFolderName hc)

/-- Idempotence of the C sanitizer: the truncated output is still clean, so
the second pass keeps it, and truncating twice is truncating once. -/
theorem sanitize_folder_name_idem (s : List Nat) :
    sanitize_folder_name (sanitize_folder_name s) = sanitize_folder_name s := by
  have hclean : ∀ c ∈ (sanitizeFolderName s).take 255,
      c ∉ invalidChars ∧ iscntrl c = false ∧ isspace c = false :=
    fun c hc => mem_sanitizeFolderName (List.take_subset _ _ hc)
  rw [sanitize_folder_name_eq_take, sanitize_folder_name_eq_take,
    sanitizeFolderName_of_clean _ hclean, List.take_take]
  simp

/-- The C++ sanitizer emits only clean characters (Bool form). -/
theorem sanitizeFolderName_all_good (s : List Nat) :
    (sanitizeFolderName s).all goodChar = true := by
  rw [List.all_eq_true]
  intro c hc
  obtain ⟨h1, h2, _⟩ := mem_sanitizeFolderName hc
  simp [goodChar, h1, h2]

/-- The C sanitizer emits only clean characters (Bool form). -/
theorem sanitize_folder_name_all_good (s : List Nat) :
    (sanitize_folder_name s).all goodChar = true := by
  rw [sanitize_folder_name_eq_take, List.all_eq_true]
  intro c hc
  obtain ⟨h1, h2, _⟩ := mem_sanitizeFolderName (List.take_subset _ _ hc)
  simp [goodChar, h1, h2]

/-! ## Claims about the sanitizers (C1, C2, C3, C6) -/

set_option maxRecDepth 4000 in
/-- C1 (counterexample): on 256 letters `a` the C implementation emits only
255 characters, so not every non-dropped character of the input is copied
through, refuting the claim as stated (which admits no truncation). -/
theorem c1_counterexample :
    ¬ (sanitize_folder_name (List.replicate 256 97) =
       sanitizeSpecMap (List.replicate 256 97)) := by decide

/-- C1 (amended): for every input, both sanitizers emit no reserved-set and
no control character; the C++ implementation replaces every whitespace
character by a single underscore and copies every other surviving character
unchanged, in order (it equals the spec's character map exactly), and the C
implementation emits the first 255 characters of that same map. -/
theorem c1_sanitize_characters (s : List Nat) :
    ((sanitize_folder_name s).all goodChar = true ∧
     (sanitizeFolderName s).all goodChar = true) ∧
    sanitizeFolderName s = sanitizeSpecMap s ∧
    sanitize_folder_name s = (sanitizeSpecMap s).take 255 :=
  ⟨⟨sanitize_folder_name_all_good s, sanitizeFolderName_all_good s⟩,
   sanitizeFolderName_eq_specMap s,
   by rw [sanitize_folder_name_eq_take, sanitizeFolderName_eq_specMap]⟩

/-- C2: both sanitizers are idempotent (totality holds by construction:
both embeddings are total functions, as are the loops of the sources). -/
theorem c2_sanitize_idempotent (s : List Nat) :
    sanitize_folder_name (sanitize_folder_name s) = sanitize_folder_name s ∧
    sanitizeFolderName (sanitizeFolderName s) = sanitizeFolderName s :=
  ⟨sanitize_folder_name_idem s, sanitizeFolderName_idem s⟩

set_option maxRecDepth 4000 in
/-- C3 (counterexample): the C++ implementation applies no truncation at
all — on 256 letters `a` its output keeps all 256 characters, refuting the
claim that sanitize truncates at 255 in both programs. -/
theorem c3_counterexample :
    ¬ ((sanitizeFolderName (List.replicate 256 97)).length ≤ 255) := by decide

/-- C3 (amended): the C implementation truncates sanitize output at 255
characters — and, being one function, enforces that bound identically on the
initial command-line name and on every re-entered name of its loop — while
the C++ implementation applies no truncation (its output is the full
character map, of which the C output is the 255-character cut). -/
theorem c3_truncation (s : List Nat) :
    (sanitize_folder_name s).length ≤ 255 ∧
    sanitize_folder_name s = (sanitizeFolderName s).take 255 := by
  refine ⟨?_, sanitize_folder_name_eq_take s⟩
  rw [sanitize_folder_name_eq_take]
  exact List.length_take_le 255 _

set_option maxRecDepth 4000 in
/-- C6 (counterexample): the two sanitizers disagree on 256 letters `a`
(the C output stops at 255 characters), so the implementations are not
extensionally equal. -/
theorem c6_counterexample :
    ¬ (sanitize_folder_name (List.replicate 256 97) =
       sanitizeFolderName (List.replicate 256 97)) := by decide

/-- C6 (amended): the two sanitizers agree up to the C truncation: the C
output is always the first 255 characters of the C++ output, and on every
input whose C++ output fits in 255 characters the two are equal. -/
theorem c6_equivalence_up_to_truncation (s : List Nat) :
    sanitize_folder_name s = (sanitizeFolderName s).take 255 ∧
    ((sanitizeFolderName s).length ≤ 255 →
      sanitize_folder_name s = sanitizeFolderName s) := by
  refine ⟨sanitize_folder_name_eq_take s, fun h => ?_⟩
  rw [sanitize_folder_name_eq_take, List.take_of_length_le h]

/-- C6 (amendment, concretely): the two sanitizers agree on a short name. -/
theorem c6_agreement_witness :
    sanitize_folder_name (str "My Project: v2") =
      sanitizeFolderName (str "My Project: v2") :=
  (c6_equivalence_up_to_truncation (str "My Project: v2")).2 (by decide)

/-! ## Claims about the confirmation loop (C7, C8, C10) -/

/-- C7: with an immediate "y" response, each confirmation loop returns the
sanitized form of its input, displays it exactly once (the display list is
that one name), and consumes exactly the one response line (the remaining
stdin is untouched). -/
theorem c7_confirm_immediate_yes (name : List Nat) (rest : List (List Nat)) :
    prompt_user_for_folder_name name (str "y" :: rest) =
      some (sanitize_folder_name name, [sanitize_folder_name name], rest) ∧
    promptForFolderName name (str "y" :: rest) =
      some (sanitizeFolderName name, [sanitizeFolderName name], rest) := by
  have hy : respIsYes (str "y") = true := by decide
  cases rest <;> simp [prompt_user_for_folder_name, promptForFolderName, hy]

/-- C8: the affirmative test every yes/no prompt of both programs applies to
a response line holds exactly when the first character is `y` (code 121) or
`Y` (code 89); every other response, the empty one included, is negative. -/
theorem c8_yes_predicate (resp : List Nat) :
    (respIsYes resp = true ↔ ∃ c t, resp = c :: t ∧ (c = 121 ∨ c = 89)) ∧
    respIsYes [] = false := by
  refine ⟨?_, rfl⟩
  cases resp with
  | nil => simp [respIsYes]
  | cons c t =>
    simp only [respIsYes, beq_iff_eq, tolowerInt]
    constructor
    · intro h
      refine ⟨c, t, rfl, ?_⟩
      by_cases hc : 65 ≤ c ∧ c ≤ 90
      · rw [if_pos hc] at h; omega
      · rw [if_neg hc] at h; omega
    · rintro ⟨d, t2, he, hd⟩
      obtain ⟨rfl, rfl⟩ : c = d ∧ t = t2 := by
        injection he with h1 h2; exact ⟨h1, h2⟩
      rcases hd with rfl | rfl <;> decide

/-- Any name the C loop hands back came out of the C sanitizer. -/
theorem promptC_returns_sanitized :
    ∀ (n : Nat) (inputs : List (List Nat)), inputs.length ≤ n →
    ∀ name f ds r,
      prompt_user_for_folder_name name inputs = some (f, ds, r) →
      ∃ m, f = sanitize_folder_name m := by
  intro n
  induction n with
  | zero =>
    intro inputs h name f ds r hrun
    obtain rfl : inputs = [] := List.length_eq_zero.mp (Nat.le_zero.mp h)
    simp [prompt_user_for_folder_name] at hrun
  | succ n ih =>
    intro inputs h name f ds r hrun
    match inputs with
    | [] => simp [prompt_user_for_folder_name] at hrun
    | [resp] =>
      by_cases hy : respIsYes resp = true
      · simp [prompt_user_for_folder_name, hy] at hrun
        exact ⟨name, hrun.1.symm⟩
      · simp [prompt_user_for_folder_name, hy] at hrun
    | resp :: newLine :: rest =>
      by_cases hy : respIsYes resp = true
      · simp [prompt_user_for_folder_name, hy] at hrun
        exact ⟨name, hrun.1.symm⟩
      · simp only [prompt_user_for_folder_name, hy, if_neg, Bool.false_eq_true,
          if_false] at hrun
        cases hrec : prompt_user_for_folder_name (readNameC newLine) rest with
        | none => rw [hrec] at hrun; exact absurd hrun (by simp)
        | some v =>
          obtain ⟨f2, ds2, r2⟩ := v
          rw [hrec] at hrun
          simp only [Option.some.injEq, Prod.mk.injEq] at hrun
          obtain ⟨rfl, -, -⟩ := hrun
          have hlen : rest.length ≤ n := by
            simp only [List.length_cons] at h; omega
          exact ih rest hlen (readNameC newLine) f2 ds2 r2 hrec

/-- Any name the C++ loop hands back came out of the C++ sanitizer. -/
theorem promptCpp_returns_sanitized :
    ∀ (n : Nat) (inputs : List (List Nat)), inputs.length ≤ n →
    ∀ name f ds r,
      promptForFolderName name inputs = some (f, ds, r) →
      ∃ m, f = sanitizeFolderName m := by
  intro n
  induction n with
  | zero =>
    intro inputs h name f ds r hrun
    obtain rfl : inputs = [] := List.length_eq_zero.mp (Nat.le_zero.mp h)
    simp [promptForFolderName] at hrun
  | succ n ih =>
    intro inputs h name f ds r hrun
    match inputs with
    | [] => simp [promptForFolderName] at hrun
    | [resp] =>
      by_cases hy : respIsYes resp = true
      · simp [promptForFolderName, hy] at hrun
        exact ⟨name, hrun.1.symm⟩
      · simp [promptForFolderName, hy] at hrun
    | resp :: newLine :: rest =>
      by_cases hy : respIsYes resp = true
      · simp [promptForFolderName, hy] at hrun
        exact ⟨name, hrun.1.symm⟩
      · simp only [promptForFolderName, hy, if_neg, Bool.false_eq_true,
          if_false] at hrun
        cases hrec : promptForFolderName newLine rest with
        | none => rw [hrec] at hrun; exact absurd hrun (by simp)
        | some v =>
          obtain ⟨f2, ds2, r2⟩ := v
          rw [hrec] at hrun
          simp only [Option.some.injEq, Prod.mk.injEq] at hrun
          obtain ⟨rfl, -, -⟩ := hrun
          have hlen : rest.length ≤ n := by
            simp only [List.length_cons] at h; omega
          exact ih rest hlen newLine f2 ds2 r2 hrec

/-- C10: however many rejections and re-entered raw names precede the
affirmative answer, the name either loop returns is a fixpoint of its
sanitizer and contains no reserved and no control character. -/
theorem c10_loop_invariant (name : List Nat) (inputs : List (List Nat))
    (f : List Nat) (ds r : List (List Nat)) :
    (prompt_user_for_folder_name name inputs = some (f, ds, r) →
      sanitize_folder_name f = f ∧ f.all goodChar = true) ∧
    (promptForFolderName name inputs = some (f, ds, r) →
      sanitizeFolderName f = f ∧ f.all goodChar = true) := by
  constructor
  · intro hrun
    obtain ⟨m, rfl⟩ :=
      promptC_returns_sanitized inputs.length inputs (Nat.le_refl _) name f ds r hrun
    exact ⟨sanitize_folder_name_idem m, sanitize_folder_name_all_good m⟩
  · intro hrun
    obtain ⟨m, rfl⟩ :=
      promptCpp_returns_sanitized inputs.length inputs (Nat.le_refl _) name f ds r hrun
    exact ⟨sanitizeFolderName_idem m, sanitizeFolderName_all_good m⟩

/-- C10 at a concrete run: one rejection, one re-entered raw name, then yes;
the returned name is its own sanitization and is clean. -/
theorem c10_witness :
    sanitize_folder_name (str "ab_c") = str "ab_c" ∧
    (str "ab_c").all goodChar = true :=
  (c10_loop_invariant (str "x") [str "n", str "a<b c", str "y"]
      (str "ab_c") [str "x", str "ab_c"] []).1 (by decide)

/-! ## Claims about the config resolver (C4, C5) -/

/-- Members of a takeWhile segment are members satisfying the predicate. -/
theorem mem_takeWhile {p : Nat → Bool} :
    ∀ {l : List Nat} {c : Nat}, c ∈ l.takeWhile p → c ∈ l ∧ p c = true
  | [], c, h => by simp [List.takeWhile] at h
  | d :: rest, c, h => by
    by_cases hp : p d = true
    · rw [List.takeWhile_cons, if_pos hp] at h
      rcases List.mem_cons.mp h with rfl | h2
      · exact ⟨List.mem_cons_self _ _, hp⟩
      · obtain ⟨hm, hc⟩ := mem_takeWhile h2
        exact ⟨List.mem_cons_of_mem _ hm, hc⟩
    · rw [List.takeWhile_cons, if_neg hp] at h
      simp at h

/-- dropWhile does nothing on a list none of whose members satisfies the
predicate. -/
theorem dropWhile_of_none {p : Nat → Bool} :
    ∀ l : List Nat, (∀ c ∈ l, p c = false) → l.dropWhile p = l
  | [], _ => rfl
  | d :: rest, h => by
    rw [List.dropWhile_cons, if_neg]
    simp [h d (List.mem_cons_self d rest)]

/-- Stripping trailing EOL characters from a line that has none is the
identity. -/
theorem stripTrailingEOL_of_clean {l : List Nat}
    (h : ∀ c ∈ l, (c == 13 || c == 10) = false) : stripTrailingEOL l = l := by
  rw [stripTrailingEOL, dropWhile_of_none, List.reverse_reverse]
  intro c hc
  exact h c (List.mem_reverse.mp hc)

/-- Without a CR in the buffer, the C cut at the first CR or LF is the cut
at the first LF. -/
theorem stripCRLF_eq_firstLine :
    ∀ {content : List Nat}, 13 ∉ content → stripCRLF content = firstLine content
  | [], _ => rfl
  | c :: rest, h => by
    have hc13 : c ≠ 13 := fun he => h (he ▸ List.mem_cons_self c rest)
    have h13 : (c == 13) = false := by simp [hc13]
    by_cases h10 : c = 10
    · subst h10
      simp [stripCRLF, firstLine, List.takeWhile_cons]
    · have h10b : (c == 10) = false := by simp [h10]
      have := stripCRLF_eq_firstLine (fun hm => h (List.mem_cons_of_mem c hm))
      simp [stripCRLF, firstLine, List.takeWhile_cons, h13, h10b] at this ⊢
      exact this

/-- The spec-level read of an existing config file equals its first line
when the content has no CR (as a text-mode read guarantees for well-formed
files). -/
theorem specReadConfig_eq_firstLine {content : List Nat} (h13 : 13 ∉ content) :
    specReadConfig content = firstLine content := by
  rw [specReadConfig]
  apply stripTrailingEOL_of_clean
  intro c hc
  obtain ⟨hm, hp⟩ := @mem_takeWhile (fun c => !(c == 10)) content c hc
  have hc13 : c ≠ 13 := fun he => h13 (he ▸ hm)
  have hc10 : (c == 10) = false := by
    cases hcb : c == 10
    · rfl
    · rw [hcb] at hp; simp at hp
  simp [hc13, hc10]

/-- C4 (counterexample): with no config file, home `/home/u` and a `y`
response, the programs join the suggested default with a backslash
(`"%s\\Projects"`, `home + "\\" + DEFAULT_SUBDIR`): the file written
contains `"/home/u\Projects\n"`, which is not the claimed
`"/home/u/Projects\n"`. -/
theorem c4_counterexample :
    read_or_create_config (some (str "/home/u")) none [str "y"] =
      CfgResult.ok (str "/home/u\\Projects") (some (str "/home/u\\Projects\n")) [] ∧
    readOrCreateBasePath (some (str "/home/u")) none [str "y"] =
      CfgResult.ok (str "/home/u\\Projects") (some (str "/home/u\\Projects\n")) [] ∧
    str "/home/u\\Projects\n" ≠ str "/home/u/Projects\n" := by decide

/-- C4 (amended): the write-then-read round trip holds with the backslash
join the code performs: the first run writes `"/home/u\Projects\n"` and a
second run over that file returns `"/home/u\Projects"`, in both programs. -/
theorem c4_config_roundtrip :
    (read_or_create_config (some (str "/home/u")) none [str "y"] =
      CfgResult.ok (str "/home/u\\Projects") (some (str "/home/u\\Projects\n")) [] ∧
     read_or_create_config (some (str "/home/u"))
        (some (str "/home/u\\Projects\n")) [] =
      CfgResult.ok (str "/home/u\\Projects") (some (str "/home/u\\Projects\n")) []) ∧
    (readOrCreateBasePath (some (str "/home/u")) none [str "y"] =
      CfgResult.ok (str "/home/u\\Projects") (some (str "/home/u\\Projects\n")) [] ∧
     readOrCreateBasePath (some (str "/home/u"))
        (some (str "/home/u\\Projects\n")) [] =
      CfgResult.ok (str "/home/u\\Projects") (some (str "/home/u\\Projects\n")) []) := by
  decide

/-- C5 (counterexample): an existing but empty config file makes the C
implementation fail — `fgets` reports end-of-file, `read_or_create_config`
returns 0 and main exits with failure — refuting "returns the result
unchanged without failing ... including when the file's content is empty". -/
theorem c5_counterexample :
    read_or_create_config (some (str "/home/u")) (some []) [] = CfgResult.fail := by
  decide

/-- C5 (amended): when the config file exists, the C++ implementation always
returns its first line with the line ending stripped, unvalidated and
without failing, the empty content included; the C implementation does the
same only for non-empty content (within its 1023-character read buffer) and
fails on an empty file.  Neither touches stdin or the file. -/
theorem c5_config_read (home content : List Nat) (stdin : List (List Nat))
    (h13 : 13 ∉ content) (hlen : content.length ≤ 1023) :
    readOrCreateBasePath (some home) (some content) stdin =
      CfgResult.ok (specReadConfig content) (some content) stdin ∧
    (content ≠ [] →
      read_or_create_config (some home) (some content) stdin =
        CfgResult.ok (specReadConfig content) (some content) stdin) := by
  have hfl := specReadConfig_eq_firstLine h13
  constructor
  · rw [readOrCreateBasePath, hfl]
    rfl
  · intro hne
    have hempty : content.isEmpty = false := by
      cases content
      · exact absurd rfl hne
      · rfl
    rw [read_or_create_config]
    rw [hempty]
    simp only [Bool.false_eq_true, if_false]
    rw [List.take_of_length_le hlen, stripCRLF_eq_firstLine h13, hfl]

/-- C5 (amendment, concretely): the spec's own §8 vector — a file holding
`"C:\Users\me\Projects\n"` resolves to `"C:\Users\me\Projects"` in both
programs, no prompting, file untouched. -/
theorem c5_witness :
    readOrCreateBasePath (some (str "/home/u"))
        (some (str "C:\\Users\\me\\Projects\n")) [] =
      CfgResult.ok (specReadConfig (str "C:\\Users\\me\\Projects\n"))
        (some (str "C:\\Users\\me\\Projects\n")) [] ∧
    read_or_create_config (some (str "/home/u"))
        (some (str "C:\\Users\\me\\Projects\n")) [] =
      CfgResult.ok (specReadConfig (str "C:\\Users\\me\\Projects\n"))
        (some (str "C:\\Users\\me\\Projects\n")) [] := by
  have h := c5_config_read (str "/home/u") (str "C:\\Users\\me\\Projects\n") []
    (by decide) (by decide)
  exact ⟨h.1, h.2 (by decide)⟩

/-! ## Claim about the handoff glue (C9) -/

/-- C9: in every run that reaches the target directory — the argument count
is right, the prompt loop and the config resolver succeed, the directory
exists or is created, and the chdir succeeds — the program exits 0 whatever
`SHGetKnownFolderPath` and `ShellExecute` answer (`env.browserOk` is never
read), and a Downloads lookup failure is only reported on stderr. -/
theorem c9_downloads_failure_nonfatal (env : Env) (a0 a1 : List Nat)
    (f bp f2 bp2 : List Nat) (ds ds2 : List (List Nat))
    (st2 st3 st2c st3c : List (List Nat)) (cfg cfg2 : Option (List Nat))
    (hargs : env.args = [a0, a1])
    (hpC : prompt_user_for_folder_name (a1.take 255) env.stdin = some (f, ds, st2))
    (hcC : read_or_create_config env.home env.config st2 = CfgResult.ok bp cfg st3)
    (hpCpp : promptForFolderName a1 env.stdin = some (f2, ds2, st2c))
    (hcCpp : readOrCreateBasePath env.home env.config st2c =
      CfgResult.ok bp2 cfg2 st3c)
    (hdir : env.dirExists = true ∨ env.mkdirOk = true)
    (hchdir : env.chdirOk = true) :
    mainC env = some (0, if env.downloadsFound then [] else [downloadsErrC]) ∧
    mainCpp env = some (0, if env.downloadsFound then [] else [downloadsErrCpp]) := by
  constructor
  · rw [mainC, hargs]
    simp only [hpC, hcC]
    rcases hdir with h | h <;> simp [h, hchdir]
  · rw [mainCpp, hargs]
    simp only [hpCpp, hcCpp]
    rcases hdir with h | h <;> simp [h, hchdir]

/-- One concrete successful run per program with the Downloads lookup
failing: exit status 0, the failure only on stderr. -/
theorem c9_witness :
    mainC ⟨[str "prog", str "name"], some (str "/h"), some (str "/base\n"),
      [str "y"], true, true, true, false, false⟩ = some (0, [downloadsErrC]) ∧
    mainCpp ⟨[str "prog", str "name"], some (str "/h"), some (str "/base\n"),
      [str "y"], true, true, true, false, false⟩ = some (0, [downloadsErrCpp]) := by
  have h := c9_downloads_failure_nonfatal
    ⟨[str "prog", str "name"], some (str "/h"), some (str "/base\n"),
      [str "y"], true, true, true, false, false⟩
    (str "prog") (str "name")
    (str "name") (str "/base") (str "name") (str "/base")
    [str "name"] [str "name"] [] [] [] []
    (some (str "/base\n")) (some (str "/base\n"))
    rfl (by decide) (by decide) (by decide) (by decide) (Or.inl rfl) rfl
  simpa using h

end FolderManager
